import Mathlib

/-!
Verification development for the utility-bill extraction service.

The development shallowly embeds the Python sources:
  * `database.py`  — the task store (job rows, counters, terminal status),
  * `worker.py`    — the per-document unit of work (serialization recovery,
                     staged-file cleanup),
  * `app.py`       — the pattern-based extraction engine (regex field
                     extraction, date/float parsing, meter segmentation).

Modelling conventions:
  * Python strings are `String` / `List Char` (ASCII character classes);
  * Python floats produced by `float(...)` on cleaned numeric strings are
    represented exactly as unscaled decimals `PyFloat` (mantissa, decimal
    exponent) with rational interpretation `PyFloat.toRat`;
  * fallible Python code returns `Option`/`Except`;
  * the regular expressions of the source are compiled by hand into a small
    backtracking matcher (`Regex`) whose alternation order, greediness and
    leftmost-search discipline mirror Python's `re` module.
-/

namespace Extractor

/-! ## Task store (`models.py`, `database.py`) -/

/-- Python `TaskStatus` from models.py lines 10-14. -/
inductive TaskStatus where
  | pending
  | processing
  | completed
  | failed
deriving DecidableEq, Repr

/-- A `Task` row (models.py lines 16-28; timestamps are not modelled). -/
structure Task where
  status : TaskStatus
  total_files : Nat
  processed_files : Nat
  failed_files : Nat
  error_message : Option String
deriving DecidableEq, Repr

/-- The task table, keyed by the task id (primary key). -/
abbrev Store := List (String × Task)

/-- Python `db.query(Task).filter(Task.id == task_id).first()`. -/
def findTask (db : Store) (id : String) : Option Task :=
  match db with
  | [] => none
  | kv :: rest => if kv.1 = id then some kv.2 else findTask rest id

/-- In-place mutation of the row with the given id (a no-op when absent),
as performed by the `if task:` blocks of database.py. -/
def updateTask (db : Store) (id : String) (f : Task → Task) : Store :=
  db.map (fun kv => if kv.1 = id then (kv.1, f kv.2) else kv)

/-- Python `create_task` (database.py lines 20-30): insert a fresh row with
status PENDING and zero counters. -/
def create_task (db : Store) (id : String) (total_files : Nat) : Store :=
  db ++ [(id, { status := TaskStatus.pending, total_files := total_files,
                processed_files := 0, failed_files := 0, error_message := none })]

/-- Body of `update_task_status` (database.py lines 32-39): always set the
status; set the error message only when it is truthy (non-`None`, non-empty). -/
def setStatusTask (status : TaskStatus) (error_message : Option String) (t : Task) : Task :=
  { t with
    status := status,
    error_message :=
      match error_message with
      | some e => if e = "" then t.error_message else some e
      | none => t.error_message }

/-- Python `update_task_status` (database.py lines 32-39). -/
def update_task_status (db : Store) (id : String) (status : TaskStatus)
    (error_message : Option String) : Store :=
  updateTask db id (setStatusTask status error_message)

/-- Second half of `increment_processed_files` (database.py lines 51-59):
update the task status if all files are processed. -/
def finalizeTask (t1 : Task) : Task :=
  if t1.processed_files + t1.failed_files = t1.total_files then
    if t1.failed_files = t1.total_files then { t1 with status := TaskStatus.failed }
    else if t1.failed_files > 0 then { t1 with status := TaskStatus.completed }
    else { t1 with status := TaskStatus.completed }
  else t1

/-- Body of `increment_processed_files` (database.py lines 41-59): bump one
counter, then finalize the status when every file has resolved. -/
def incTask (success : Bool) (t : Task) : Task :=
  finalizeTask
    (if success then { t with processed_files := t.processed_files + 1 }
     else { t with failed_files := t.failed_files + 1 })

/-- Python `increment_processed_files` (database.py lines 41-59). -/
def increment_processed_files (db : Store) (id : String) (success : Bool) : Store :=
  updateTask db id (incTask success)

/-- The status snapshot returned by `get_task_status` (database.py lines
79-95), without the unmodelled timestamps. -/
structure StatusView where
  id : String
  status : TaskStatus
  total_files : Nat
  processed_files : Nat
  failed_files : Nat
  error_message : Option String
deriving DecidableEq, Repr

/-- Python `get_task_status` (database.py lines 79-95): `none` models the Python
`None` returned for an unknown id. -/
def get_task_status (db : Store) (id : String) : Option StatusView :=
  (findTask db id).map (fun t =>
    { id := id, status := t.status, total_files := t.total_files,
      processed_files := t.processed_files, failed_files := t.failed_files,
      error_message := t.error_message })

/-- Python `GET /api/tasks/{task_id}/status` (app.py lines 728-734): 404 when the
store reports no such task. -/
def statusEndpoint (db : Store) (id : String) : Except String StatusView :=
  match get_task_status db id with
  | none => Except.error "Task not found"
  | some s => Except.ok s

/-- Python `GET /api/tasks/{task_id}/results` (app.py lines 736-748) checks
`get_task_status` first and 404s on an unknown id (the id payload stands in
for the full results body). -/
def resultsEndpoint (db : Store) (id : String) : Except String String :=
  match get_task_status db id with
  | none => Except.error "Task not found"
  | some _ => Except.ok id

/-! ### The per-job trace driven by the orchestrator (`worker.py`)

`process_files` (worker.py lines 99-118) sets the task to PROCESSING before
spawning the units, and each unit ends with exactly one
`increment_processed_files` call (worker.py lines 76 and 90).  A job's
store-level history is therefore: `create_task`, then the PROCESSING update,
then one increment per resolved document, `true` for a success and `false`
for a failure. -/

/-- Fold the per-document increments over the store. -/
def runIncrements (db : Store) (id : String) (outcomes : List Bool) : Store :=
  outcomes.foldl (fun db b => increment_processed_files db id b) db

/-- The store after the orchestrator has created the job, marked it
PROCESSING, and had the units with the given outcomes resolve. -/
def runJob (db : Store) (id : String) (total : Nat) (outcomes : List Bool) : Store :=
  runIncrements
    (update_task_status (create_task db id total) id TaskStatus.processing none)
    id outcomes

/-- The task-level effect of a list of increments. -/
def applyOutcomes (t : Task) (outcomes : List Bool) : Task :=
  outcomes.foldl (fun t b => incTask b t) t

/-! ### Store lookup lemmas -/

theorem findTask_updateTask (db : Store) (id : String) (f : Task → Task) :
    findTask (updateTask db id f) id = (findTask db id).map f := by
  induction db with
  | nil => rfl
  | cons kv rest ih =>
    by_cases h : kv.1 = id
    · simp [findTask, updateTask, h]
    · simp only [updateTask, List.map_cons, if_neg h, findTask]
      simpa [updateTask] using ih

theorem updateTask_of_none (db : Store) (id : String) (f : Task → Task)
    (h : findTask db id = none) : updateTask db id f = db := by
  induction db with
  | nil => rfl
  | cons kv rest ih =>
    simp only [findTask] at h
    by_cases hk : kv.1 = id
    · simp [hk] at h
    · rw [if_neg hk] at h
      have h2 := ih h
      simp only [updateTask] at h2 ⊢
      simp [hk, h2]

theorem findTask_create (db : Store) (id : String) (total : Nat)
    (h : findTask db id = none) :
    findTask (create_task db id total) id =
      some { status := TaskStatus.pending, total_files := total,
             processed_files := 0, failed_files := 0, error_message := none } := by
  induction db with
  | nil => simp [create_task, findTask]
  | cons kv rest ih =>
    simp only [findTask] at h
    by_cases hk : kv.1 = id
    · simp [hk] at h
    · simp [hk] at h
      simpa [create_task, findTask, hk] using ih h

theorem findTask_runIncrements (db : Store) (id : String) (outcomes : List Bool) :
    findTask (runIncrements db id outcomes) id =
      (findTask db id).map (fun t => applyOutcomes t outcomes) := by
  induction outcomes generalizing db with
  | nil => simp [runIncrements, applyOutcomes]
  | cons b rest ih =>
    simp only [runIncrements, List.foldl_cons] at *
    rw [ih, increment_processed_files, findTask_updateTask]
    cases findTask db id <;> simp [applyOutcomes]

/-! ### Task-level counter and status lemmas -/

theorem finalizeTask_processed (t : Task) :
    (finalizeTask t).processed_files = t.processed_files := by
  simp only [finalizeTask]
  split
  · split
    · rfl
    · split <;> rfl
  · rfl

theorem finalizeTask_failed (t : Task) :
    (finalizeTask t).failed_files = t.failed_files := by
  simp only [finalizeTask]
  split
  · split
    · rfl
    · split <;> rfl
  · rfl

theorem finalizeTask_total (t : Task) :
    (finalizeTask t).total_files = t.total_files := by
  simp only [finalizeTask]
  split
  · split
    · rfl
    · split <;> rfl
  · rfl

theorem finalizeTask_status_of_ne (t : Task)
    (h : t.processed_files + t.failed_files ≠ t.total_files) :
    (finalizeTask t).status = t.status := by
  simp [finalizeTask, h]

theorem finalizeTask_status_of_eq (t : Task)
    (h : t.processed_files + t.failed_files = t.total_files) :
    (finalizeTask t).status =
      (if t.failed_files = t.total_files then TaskStatus.failed
       else TaskStatus.completed) := by
  simp only [finalizeTask, if_pos h]
  by_cases hf : t.failed_files = t.total_files
  · simp [hf]
  · simp only [if_neg hf]
    split <;> rfl

theorem incTask_total (b : Bool) (t : Task) :
    (incTask b t).total_files = t.total_files := by
  cases b <;> simp [incTask, finalizeTask_total]

theorem incTask_processed (b : Bool) (t : Task) :
    (incTask b t).processed_files = t.processed_files + (if b then 1 else 0) := by
  cases b <;> simp [incTask, finalizeTask_processed]

theorem incTask_failed (b : Bool) (t : Task) :
    (incTask b t).failed_files = t.failed_files + (if b then 0 else 1) := by
  cases b <;> simp [incTask, finalizeTask_failed]

theorem incTask_status_of_lt (b : Bool) (t : Task)
    (h : t.processed_files + t.failed_files + 1 ≠ t.total_files) :
    (incTask b t).status = t.status := by
  cases b <;> simp only [incTask, if_true, if_false, Bool.false_eq_true] <;>
    rw [finalizeTask_status_of_ne] <;> simp <;> omega

theorem incTask_status_of_eq (b : Bool) (t : Task)
    (h : t.processed_files + t.failed_files + 1 = t.total_files) :
    (incTask b t).status =
      (if t.failed_files + (if b then 0 else 1) = t.total_files
       then TaskStatus.failed else TaskStatus.completed) := by
  cases b <;> simp only [incTask, if_true, if_false, Bool.false_eq_true] <;>
    rw [finalizeTask_status_of_eq] <;> simp <;> omega

theorem applyOutcomes_total (outcomes : List Bool) (t : Task) :
    (applyOutcomes t outcomes).total_files = t.total_files := by
  induction outcomes generalizing t with
  | nil => rfl
  | cons b rest ih => simp [applyOutcomes, List.foldl_cons] at *; rw [ih, incTask_total]

theorem applyOutcomes_processed (outcomes : List Bool) (t : Task) :
    (applyOutcomes t outcomes).processed_files =
      t.processed_files + outcomes.count true := by
  induction outcomes generalizing t with
  | nil => simp [applyOutcomes]
  | cons b rest ih =>
    simp only [applyOutcomes, List.foldl_cons] at *
    rw [ih, incTask_processed]
    cases b <;> simp [List.count_cons] <;> omega

theorem applyOutcomes_failed (outcomes : List Bool) (t : Task) :
    (applyOutcomes t outcomes).failed_files =
      t.failed_files + outcomes.count false := by
  induction outcomes generalizing t with
  | nil => simp [applyOutcomes]
  | cons b rest ih =>
    simp only [applyOutcomes, List.foldl_cons] at *
    rw [ih, incTask_failed]
    cases b <;> simp [List.count_cons] <;> omega

theorem applyOutcomes_status_of_lt (outcomes : List Bool) (t : Task)
    (h : t.processed_files + t.failed_files + outcomes.length < t.total_files) :
    (applyOutcomes t outcomes).status = t.status := by
  induction outcomes generalizing t with
  | nil => rfl
  | cons b rest ih =>
    simp only [applyOutcomes, List.foldl_cons, List.length_cons] at *
    have h1 : t.processed_files + t.failed_files + 1 ≠ t.total_files := by omega
    have h2 : (incTask b t).processed_files + (incTask b t).failed_files + rest.length
        < (incTask b t).total_files := by
      rw [incTask_processed, incTask_failed, incTask_total]
      cases b <;> simp <;> omega
    rw [ih (incTask b t) h2, incTask_status_of_lt b t h1]

theorem applyOutcomes_status_of_eq (outcomes : List Bool) (t : Task)
    (hne : outcomes ≠ [])
    (h : t.processed_files + t.failed_files + outcomes.length = t.total_files) :
    (applyOutcomes t outcomes).status =
      (if t.failed_files + outcomes.count false = t.total_files
       then TaskStatus.failed else TaskStatus.completed) := by
  induction outcomes generalizing t with
  | nil => exact absurd rfl hne
  | cons b rest ih =>
    cases rest with
    | nil =>
      simp only [applyOutcomes, List.foldl_cons, List.foldl_nil, List.length_cons,
        List.length_nil] at *
      rw [incTask_status_of_eq b t (by omega)]
      cases b <;> simp [List.count_cons]
    | cons c rest2 =>
      simp only [applyOutcomes, List.foldl_cons, List.length_cons] at *
      have h2 : (incTask b t).processed_files + (incTask b t).failed_files +
          (c :: rest2).length = (incTask b t).total_files := by
        rw [incTask_processed, incTask_failed, incTask_total]
        simp only [List.length_cons]
        cases b <;> simp <;> omega
      have hrec := ih (incTask b t) (by simp) h2
      simp only [applyOutcomes, List.foldl_cons] at hrec
      rw [hrec, incTask_failed, incTask_total]
      have hcount : t.failed_files + (if b then 0 else 1) + (c :: rest2).count false
          = t.failed_files + (b :: c :: rest2).count false := by
        cases b <;> simp [List.count_cons] <;> omega
      rw [hcount]

theorem count_true_add_count_false (l : List Bool) :
    l.count true + l.count false = l.length := by
  induction l with
  | nil => rfl
  | cons b rest ih => cases b <;> simp [List.count_cons] <;> omega

theorem findTask_runJob (db : Store) (id : String) (total : Nat) (outcomes : List Bool)
    (hfresh : findTask db id = none) :
    findTask (runJob db id total outcomes) id =
      some (applyOutcomes
        { status := TaskStatus.processing, total_files := total,
          processed_files := 0, failed_files := 0, error_message := none } outcomes) := by
  rw [runJob, findTask_runIncrements, update_task_status, findTask_updateTask,
    findTask_create db id total hfresh]
  rfl

/-- The aggregate progress counter of a job row. -/
def countersSum (t : Task) : Nat := t.processed_files + t.failed_files

theorem findTask_increment_sum (db : Store) (id : String) (b : Bool) :
    (findTask (increment_processed_files db id b) id).map countersSum
      = (findTask db id).map (fun t => countersSum t + 1) := by
  rw [increment_processed_files, findTask_updateTask]
  cases h : findTask db id with
  | none => rfl
  | some t =>
    simp only [Option.map_some']
    cases b <;>
      simp [countersSum, incTask_processed, incTask_failed] <;> omega

/-! ## Claim theorems on the task store -/

/-- C1: once all units of a job have resolved (`processed_count + failed_count
= total_documents`), the job status is Failed iff `failed_count =
total_documents` and Completed otherwise; before any increment the status is
Pending, and while the resolved count is below the total it is Processing;
a job with at least one success and at least one failure ends Completed. -/
theorem claim_C1_job_terminal_status (db : Store) (id : String) (total : Nat)
    (outcomes : List Bool)
    (hfresh : findTask db id = none) (hlen : outcomes.length = total)
    (hpos : 0 < total) :
    ((findTask (create_task db id total) id).map Task.status
        = some TaskStatus.pending) ∧
    (∀ p : List Bool, p.length < total →
      (findTask (runJob db id total p) id).map Task.status
        = some TaskStatus.processing) ∧
    ((findTask (runJob db id total outcomes) id).map Task.status =
      some (if outcomes.count false = total then TaskStatus.failed
            else TaskStatus.completed)) ∧
    (true ∈ outcomes →
      (findTask (runJob db id total outcomes) id).map Task.status
        = some TaskStatus.completed) := by
  refine ⟨?_, ?_, ?_, ?_⟩
  · rw [findTask_create db id total hfresh]
    rfl
  · intro p hp
    rw [findTask_runJob db id total p hfresh]
    simp only [Option.map_some', Option.some_inj]
    rw [applyOutcomes_status_of_lt]
    simpa using hp
  · rw [findTask_runJob db id total outcomes hfresh]
    simp only [Option.map_some', Option.some_inj]
    rw [applyOutcomes_status_of_eq]
    · simp
    · intro hniL
      rw [hniL] at hlen
      simp at hlen
      omega
    · simpa using hlen
  · intro htrue
    rw [findTask_runJob db id total outcomes hfresh]
    simp only [Option.map_some', Option.some_inj]
    rw [applyOutcomes_status_of_eq]
    · simp only []
      rw [if_neg]
      intro hc
      have hcl : outcomes.count false = outcomes.length := by omega
      have := List.count_eq_length.mp hcl
      have := this true htrue
      simp at this
    · intro hniL
      rw [hniL] at hlen
      simp at hlen
      omega
    · simpa using hlen

/-- C1 witness: a two-document job with one success and one failure ends
Completed. -/
theorem claim_C1_witness :
    findTask ([] : Store) "j" = none ∧ [true, false].length = 2 ∧ 0 < 2 ∧
    ((findTask (create_task [] "j" 2) "j").map Task.status
        = some TaskStatus.pending) ∧
    ((findTask (runJob [] "j" 2 [true, false]) "j").map Task.status =
      some (if [true, false].count false = 2 then TaskStatus.failed
            else TaskStatus.completed)) :=
  ⟨rfl, rfl, by decide,
    (claim_C1_job_terminal_status [] "j" 2 [true, false] rfl rfl (by decide)).1,
    (claim_C1_job_terminal_status [] "j" 2 [true, false] rfl rfl (by decide)).2.2.1⟩

/-- C2: each `increment_processed_files` call adds exactly one to exactly one
of the two counters, `update_task_status` leaves the counters unchanged, and
along a job run performing one increment per submitted document the sum
`processed_count + failed_count` grows by exactly one per resolved document
and never exceeds `total_documents`. -/
theorem claim_C2_counters_monotone (db : Store) (id : String) (total : Nat)
    (outcomes : List Bool)
    (hfresh : findTask db id = none) (hlen : outcomes.length ≤ total) :
    (∀ db2 : Store, ∀ id2 : String,
      (findTask (increment_processed_files db2 id2 true) id2).map Task.processed_files
          = (findTask db2 id2).map (fun t => t.processed_files + 1) ∧
      (findTask (increment_processed_files db2 id2 true) id2).map Task.failed_files
          = (findTask db2 id2).map Task.failed_files) ∧
    (∀ db2 : Store, ∀ id2 : String,
      (findTask (increment_processed_files db2 id2 false) id2).map Task.failed_files
          = (findTask db2 id2).map (fun t => t.failed_files + 1) ∧
      (findTask (increment_processed_files db2 id2 false) id2).map Task.processed_files
          = (findTask db2 id2).map Task.processed_files) ∧
    (∀ db2 : Store, ∀ id2 : String, ∀ st : TaskStatus, ∀ err : Option String,
      (findTask (update_task_status db2 id2 st err) id2).map countersSum
          = (findTask db2 id2).map countersSum) ∧
    (∀ p : List Bool, ∀ b : Bool,
      (findTask (runJob db id total (p ++ [b])) id).map countersSum
          = (findTask (runJob db id total p) id).map (fun t => countersSum t + 1)) ∧
    ((findTask (runJob db id total outcomes) id).map countersSum
        = some outcomes.length ∧
      outcomes.length ≤ total) := by
  refine ⟨?_, ?_, ?_, ?_, ?_, hlen⟩
  · intro db2 id2
    rw [increment_processed_files, findTask_updateTask]
    cases findTask db2 id2 <;>
      simp [incTask_processed, incTask_failed]
  · intro db2 id2
    rw [increment_processed_files, findTask_updateTask]
    cases findTask db2 id2 <;>
      simp [incTask_processed, incTask_failed]
  · intro db2 id2 st err
    rw [update_task_status, findTask_updateTask]
    cases findTask db2 id2 <;> simp [countersSum, setStatusTask]
  · intro p b
    have hstep : runJob db id total (p ++ [b])
        = increment_processed_files (runJob db id total p) id b := by
      simp [runJob, runIncrements, List.foldl_append]
    rw [hstep, findTask_increment_sum]
  · rw [findTask_runJob db id total outcomes hfresh]
    simp only [Option.map_some', Option.some_inj, countersSum]
    rw [applyOutcomes_processed, applyOutcomes_failed]
    show 0 + outcomes.count true + (0 + outcomes.count false) = outcomes.length
    have := count_true_add_count_false outcomes
    omega

/-- C2 witness: one resolved document out of two. -/
theorem claim_C2_witness :
    findTask ([] : Store) "j" = none ∧ [true].length ≤ 2 ∧
    ((findTask (runJob [] "j" 2 [true]) "j").map countersSum = some [true].length ∧
      [true].length ≤ 2) :=
  ⟨rfl, by decide,
    (claim_C2_counters_monotone [] "j" 2 [true] rfl (by decide)).2.2.2.2⟩

/-- C10: mutating store operations on an unknown job id are silent no-ops
(the store is returned unchanged, no error), while the status/results queries
for the same id report `None`, which the HTTP layer turns into 404. -/
theorem claim_C10_unknown_id_noop (db : Store) (id : String) (st : TaskStatus)
    (err : Option String) (b : Bool) (h : findTask db id = none) :
    update_task_status db id st err = db ∧
    increment_processed_files db id b = db ∧
    get_task_status db id = none ∧
    statusEndpoint db id = Except.error "Task not found" ∧
    resultsEndpoint db id = Except.error "Task not found" := by
  refine ⟨updateTask_of_none db id _ h, updateTask_of_none db id _ h, ?_, ?_, ?_⟩
  · simp [get_task_status, h]
  · simp [statusEndpoint, get_task_status, h]
  · simp [resultsEndpoint, get_task_status, h]

/-- A concrete occupied store row for the C10 witness. -/
def witnessTask : Task :=
  { status := TaskStatus.processing, total_files := 2, processed_files := 1,
    failed_files := 0, error_message := none }

/-- C10 witness: mutations on an id that is not the one present row leave the
store untouched and the queries report not-found. -/
theorem claim_C10_witness :
    findTask [("k", witnessTask)] "a" = none ∧
    (update_task_status [("k", witnessTask)] "a" TaskStatus.failed (some "x")
        = [("k", witnessTask)] ∧
      increment_processed_files [("k", witnessTask)] "a" true = [("k", witnessTask)] ∧
      get_task_status [("k", witnessTask)] "a" = none ∧
      statusEndpoint [("k", witnessTask)] "a" = Except.error "Task not found" ∧
      resultsEndpoint [("k", witnessTask)] "a" = Except.error "Task not found") :=
  ⟨rfl, claim_C10_unknown_id_noop [("k", witnessTask)] "a" TaskStatus.failed
    (some "x") true rfl⟩

/-! ## The unit of work (`worker.py`, `ExtractionWorker.process_file`)

The per-document unit (worker.py lines 35-97) is a try/except/finally over
external collaborators.  We model:
  * the extracted record as a Python attribute dictionary
    (`extracted_data.__dict__`), an association list of field name to value;
  * `fastapi.encoders.jsonable_encoder` through a serializability oracle
    `ok : String → PyVal → Bool` (one oracle, used at every call site exactly
    as the one Python function is): encoding a dictionary succeeds iff every
    entry is serializable, and fails naming the first offending field;
  * `llm_extract_data_from_pdf` through its outcome (`Except`), and a
    possible store failure of the Completed-result write through `persist`;
  * the staging directory as the list of staged file paths; `os.remove`
    wrapped in try/except is the removal of the path when present. -/

/-- An opaque Python attribute value: `None`, a string, or some other
object represented by a tag. -/
inductive PyVal where
  | pynull
  | pystr (s : String)
  | pyobj (n : Nat)
deriving DecidableEq, Repr

/-- A Python attribute dictionary (`__dict__` items, in order). -/
abbrev PyDict := List (String × PyVal)

/-- Python `jsonable_encoder` on a dictionary, driven by the per-field
serializability oracle `ok`: succeeds (returning the encoded dictionary,
identity in this model) iff every field serializes; otherwise raises naming
the first field that does not. -/
def encodeDict (ok : String → PyVal → Bool) (d : PyDict) : Except String PyDict :=
  match d.find? (fun kv => !(ok kv.1 kv.2)) with
  | some kv => Except.error ("cannot serialize field " ++ kv.1)
  | none => Except.ok d

/-- The salvage loop of worker.py lines 48-58: walk `__dict__.items()`,
skip private attributes, keep each field whose singleton encoding succeeds
(`jsonable_encoder({key: value})`), and replace the value of each field that
fails with `None`. -/
def safeData (ok : String → PyVal → Bool) (d : PyDict) : PyDict :=
  d.filterMap (fun kv =>
    if kv.1.startsWith "_" then none
    else if ok kv.1 kv.2 then some kv
    else some (kv.1, PyVal.pynull))

/-- Python dict assignment `d[k] = v`: overwrite when the key exists, append
otherwise (worker.py line 67, `serialized_data['source_file'] = filename`). -/
def setKey (d : PyDict) (k : String) (v : PyVal) : PyDict :=
  if d.any (fun kv => kv.1 = k) then
    d.map (fun kv => if kv.1 = k then (k, v) else kv)
  else d ++ [(k, v)]

/-- An `extraction_results` row (models.py lines 30-41, timestamps not
modelled). -/
structure ResultRow where
  task_id : String
  filename : String
  status : TaskStatus
  extracted_data : Option PyDict
  error_message : Option String
deriving DecidableEq, Repr

/-- The state a unit of work touches: the staging directory, the task table
and the results table. -/
structure WorkerState where
  staged : List String
  tasks : Store
  results : List ResultRow
deriving DecidableEq, Repr

/-- Python `add_extraction_result` (database.py lines 61-77): append a result row. -/
def add_extraction_result (st : WorkerState) (task_id filename : String)
    (status : TaskStatus) (extracted_data : Option PyDict)
    (error_message : Option String) : WorkerState :=
  { st with results := st.results ++
      [{ task_id := task_id, filename := filename, status := status,
         extracted_data := extracted_data, error_message := error_message }] }

/-- The `except Exception` arm of `process_file` (worker.py lines 78-90):
record a Failed result carrying the exception message, then count the
failure. -/
def failPath (st : WorkerState) (task_id filename e : String) : WorkerState :=
  let st1 := add_extraction_result st task_id filename TaskStatus.failed none (some e)
  { st1 with tasks := increment_processed_files st1.tasks task_id false }

/-- The success arm of `process_file` (worker.py lines 66-76): append the
source filename to the serialized record, record a Completed result, then
count the success. -/
def successPath (st : WorkerState) (task_id filename : String) (d : PyDict) :
    WorkerState :=
  let row := setKey d "source_file" (PyVal.pystr filename)
  let st1 := add_extraction_result st task_id filename TaskStatus.completed
    (some row) none
  { st1 with tasks := increment_processed_files st1.tasks task_id true }

/-- Serialization and persistence of one successfully extracted record
(worker.py lines 41-76): try `jsonable_encoder`, on failure rebuild the
degraded `safe_data` and retry, on double failure raise
`Data serialization failed: <original error>`; `persist` is `none` when the
Completed-result write succeeds and `some e` when it raises (the
transactional store then writes nothing and the exception lands in the
`except` arm). -/
def processRecord (ok : String → PyVal → Bool) (record : PyDict)
    (persist : Option String) (task_id filename : String) (st : WorkerState)
    : WorkerState :=
  match encodeDict ok record with
  | Except.ok d =>
    match persist with
    | none => successPath st task_id filename d
    | some e => failPath st task_id filename e
  | Except.error e1 =>
    match encodeDict ok (safeData ok record) with
    | Except.ok d2 =>
      match persist with
      | none => successPath st task_id filename d2
      | some e => failPath st task_id filename e
    | Except.error _ =>
      failPath st task_id filename ("Data serialization failed: " ++ e1)

/-- The body of the outer `try` of `process_file` with its `except` arm
(worker.py lines 37-90), before the `finally`.  `extract` is the outcome of
`llm_extract_data_from_pdf` for this document. -/
def processBody (ok : String → PyVal → Bool) (extract : Except String PyDict)
    (persist : Option String) (task_id filename : String) (st : WorkerState) :
    WorkerState :=
  match extract with
  | Except.error e => failPath st task_id filename e
  | Except.ok record => processRecord ok record persist task_id filename st

/-- The `finally` of `process_file` (worker.py lines 92-97): remove the
staged file; a failure of the removal itself is swallowed (removing an
absent path is a no-op). -/
def finalizeCleanup (st : WorkerState) (filepath : String) : WorkerState :=
  { st with staged := st.staged.erase filepath }

/-- Python `ExtractionWorker.process_file` (worker.py lines 35-97). -/
def process_file (ok : String → PyVal → Bool) (extract : Except String PyDict)
    (persist : Option String) (task_id filepath filename : String)
    (st : WorkerState) : WorkerState :=
  finalizeCleanup (processBody ok extract persist task_id filename st) filepath

theorem failPath_staged (st : WorkerState) (task_id filename e : String) :
    (failPath st task_id filename e).staged = st.staged := rfl

theorem successPath_staged (st : WorkerState) (task_id filename : String)
    (d : PyDict) : (successPath st task_id filename d).staged = st.staged := rfl

theorem processRecord_staged (ok : String → PyVal → Bool) (record : PyDict)
    (persist : Option String) (task_id filename : String) (st : WorkerState) :
    (processRecord ok record persist task_id filename st).staged = st.staged := by
  unfold processRecord
  cases h1 : encodeDict ok record with
  | ok d => cases persist <;> rfl
  | error e1 =>
    cases h2 : encodeDict ok (safeData ok record) with
    | ok d2 => cases persist <;> rfl
    | error e2 => rfl

theorem processBody_staged (ok : String → PyVal → Bool)
    (extract : Except String PyDict) (persist : Option String)
    (task_id filename : String) (st : WorkerState) :
    (processBody ok extract persist task_id filename st).staged = st.staged := by
  unfold processBody
  cases extract with
  | error e => rfl
  | ok record => exact processRecord_staged ok record persist task_id filename st

/-- C9: a unit of work deletes its staged document on every exit path:
whatever the extraction, serialization and persistence outcomes, after the
unit resolves its staged file path is gone from the staging location. -/
theorem claim_C9_staged_file_always_deleted (ok : String → PyVal → Bool)
    (extract : Except String PyDict) (persist : Option String)
    (task_id filepath filename : String) (st : WorkerState)
    (hnd : st.staged.Nodup) :
    filepath ∉ (process_file ok extract persist task_id filepath filename st).staged := by
  rw [process_file, finalizeCleanup]
  simp only [processBody_staged]
  intro hmem
  have := (List.Nodup.mem_erase_iff hnd).mp hmem
  exact this.1 rfl

/-- C9 witness: a unit whose extraction fails still removes its staged file. -/
theorem claim_C9_witness :
    (["up/a.pdf"] : List String).Nodup ∧
    "up/a.pdf" ∉ (process_file (fun _ _ => true) (Except.error "boom") none
      "t1" "up/a.pdf" "a.pdf"
      { staged := ["up/a.pdf"], tasks := [], results := [] }).staged :=
  ⟨by decide,
    claim_C9_staged_file_always_deleted (fun _ _ => true) (Except.error "boom")
      none "t1" "up/a.pdf" "a.pdf"
      { staged := ["up/a.pdf"], tasks := [], results := [] } (by decide)⟩

/-- C6: when the first serialization of an extracted record fails, the unit
rebuilds a degraded record that keeps every public field whose value still
serializes and nulls exactly the fields that do not; if the degraded record
also fails to serialize, the unit resolves through the Failed arm carrying
the original serialization error; if it serializes, the unit resolves
through the Completed arm (with the degraded record plus the source
filename) and the success is what gets counted. -/
theorem claim_C6_serialization_recovery (ok : String → PyVal → Bool)
    (record : PyDict) (task_id filepath filename : String) (st : WorkerState)
    (e1 : String) (henc : encodeDict ok record = Except.error e1) :
    (∀ k : String, ∀ v : PyVal, (k, v) ∈ record → ¬ k.startsWith "_" →
      ((ok k v = true → (k, v) ∈ safeData ok record) ∧
       (ok k v = false → (k, PyVal.pynull) ∈ safeData ok record))) ∧
    (∀ k : String, ∀ v : PyVal, (k, v) ∈ record → k.startsWith "_" = false →
      ok k v = true → (k, v) ∈ safeData ok record) ∧
    (process_file ok (Except.ok record) none task_id filepath filename st =
      finalizeCleanup
        (match encodeDict ok (safeData ok record) with
         | Except.ok d2 => successPath st task_id filename d2
         | Except.error _ =>
             failPath st task_id filename ("Data serialization failed: " ++ e1))
        filepath) ∧
    (∀ d2 : PyDict,
      (successPath st task_id filename d2).results =
        st.results ++
          [{ task_id := task_id,
             filename := filename,
             status := TaskStatus.completed,
             extracted_data := some (setKey d2 "source_file" (PyVal.pystr filename)),
             error_message := none }] ∧
      (successPath st task_id filename d2).tasks =
        increment_processed_files st.tasks task_id true) ∧
    (∀ e : String,
      (failPath st task_id filename e).results =
        st.results ++
          [{ task_id := task_id,
             filename := filename,
             status := TaskStatus.failed,
             extracted_data := none,
             error_message := some e }] ∧
      (failPath st task_id filename e).tasks =
        increment_processed_files st.tasks task_id false) := by
  refine ⟨?_, ?_, ?_, ?_, ?_⟩
  · intro k v hmem hpriv
    constructor
    · intro hok
      refine List.mem_filterMap.mpr ⟨(k, v), hmem, ?_⟩
      simp only [hpriv, if_false, hok, if_true]
      simp [hpriv]
    · intro hok
      refine List.mem_filterMap.mpr ⟨(k, v), hmem, ?_⟩
      simp [hpriv, hok]
  · intro k v hmem hpriv hok
    refine List.mem_filterMap.mpr ⟨(k, v), hmem, ?_⟩
    simp [hpriv, hok]
  · simp only [process_file, processBody, processRecord, henc]
  · intro d2
    exact ⟨rfl, rfl⟩
  · intro e
    exact ⟨rfl, rfl⟩

/-- A concrete record for the C6 witness: field `b` does not serialize. -/
def c6record : PyDict := [("a", PyVal.pyobj 1), ("b", PyVal.pyobj 2)]

/-- The C6 witness oracle: everything but field `b` serializes. -/
def c6ok (k : String) (_v : PyVal) : Bool := !(k = "b")

/-- C6 witness: the record whose field `b` fails to serialize goes through
recovery, which keeps field `a`, nulls field `b`, and resolves Completed. -/
theorem claim_C6_witness :
    encodeDict c6ok c6record = Except.error "cannot serialize field b" ∧
    (("a", PyVal.pyobj 1) ∈ c6record → ¬ "a".startsWith "_" →
      (c6ok "a" (PyVal.pyobj 1) = true →
        ("a", PyVal.pyobj 1) ∈ safeData c6ok c6record) ∧
      (c6ok "a" (PyVal.pyobj 1) = false →
        ("a", PyVal.pynull) ∈ safeData c6ok c6record)) ∧
    (process_file c6ok (Except.ok c6record) none "t1" "up/a.pdf" "a.pdf"
        { staged := ["up/a.pdf"], tasks := [], results := [] } =
      finalizeCleanup
        (match encodeDict c6ok (safeData c6ok c6record) with
         | Except.ok d2 => successPath
             { staged := ["up/a.pdf"], tasks := [], results := [] } "t1" "a.pdf" d2
         | Except.error _ => failPath
             { staged := ["up/a.pdf"], tasks := [], results := [] } "t1" "a.pdf"
             ("Data serialization failed: " ++ "cannot serialize field b"))
        "up/a.pdf") :=
  ⟨rfl,
    (claim_C6_serialization_recovery c6ok c6record "t1" "up/a.pdf" "a.pdf"
      { staged := ["up/a.pdf"], tasks := [], results := [] }
      "cannot serialize field b" rfl).1 "a" (PyVal.pyobj 1),
    (claim_C6_serialization_recovery c6ok c6record "t1" "up/a.pdf" "a.pdf"
      { staged := ["up/a.pdf"], tasks := [], results := [] }
      "cannot serialize field b" rfl).2.2.1⟩

/-! ## Numeric parsing (`app.py`, `parse_float`)

`parse_float` strips every character outside `[\d.-]` and calls `float`.
The cleaned strings contain only digits, `.` and `-`, so every value
`float` can accept here is a finite decimal; we represent it exactly. -/

/-- An exact decimal `num / 10 ^ exp`, the value `float(cleaned)` returns
(the source never computes with these values, it only stores them). -/
structure PyFloat where
  num : Int
  exp : Nat
deriving DecidableEq, Repr

/-- The rational value of a parsed decimal. -/
def PyFloat.toRat (f : PyFloat) : ℚ := (f.num : ℚ) / (10 : ℚ) ^ f.exp

/-- The number denoted by a digit string (most significant first). -/
def natOfDigits (cs : List Char) : Nat :=
  cs.foldl (fun n c => n * 10 + (c.toNat - '0'.toNat)) 0

/-- The unsigned part of the grammar Python `float` accepts over the
alphabet digits, '.', '-' (no sign here): `d+ ('.' d*)?` or `'.' d+`. -/
def pyFloatMag (cs : List Char) : Option PyFloat :=
  let ip := cs.takeWhile Char.isDigit
  let rest := cs.drop ip.length
  match rest with
  | [] => if ip.isEmpty then none else some ⟨natOfDigits ip, 0⟩
  | '.' :: frac =>
    if frac.all Char.isDigit && (!ip.isEmpty || !frac.isEmpty) then
      some ⟨natOfDigits (ip ++ frac), frac.length⟩
    else none
  | _ => none

/-- Python `float(...)` on a cleaned numeric string: one optional leading
minus sign, then the unsigned grammar; anything else raises (`none`). -/
def pyFloatLit (cs : List Char) : Option PyFloat :=
  match cs with
  | '-' :: rest => (pyFloatMag rest).map (fun f => ⟨-f.num, f.exp⟩)
  | _ => pyFloatMag cs

/-- The character class kept by `re.sub(r'[^\d.-]', '', value_str)`. -/
def numericKept (c : Char) : Bool := c.isDigit || c == '.' || c == '-'

/-- Python `parse_float` (app.py lines 187-196): strip every character except
digits, '.' and '-', then parse as a decimal; `None` when `float` raises. -/
def parse_float (s : String) : Option PyFloat :=
  pyFloatLit (s.toList.filter numericKept)

/-- C8: numeric parsing strips every character except digits, '.' and '-',
parses the remainder as a decimal and returns null (never raising) when the
parse fails; "$1,234.56" parses to 1234.56 and "N/A" yields null.  Cleaning
is idempotent, so the parse depends only on the kept characters. -/
theorem claim_C8_parse_float (s : String) :
    (parse_float s = pyFloatLit (s.toList.filter numericKept)) ∧
    (parse_float (String.mk (s.toList.filter numericKept)) = parse_float s) ∧
    ((parse_float "$1,234.56").map PyFloat.toRat = some (1234.56 : ℚ)) ∧
    (parse_float "N/A" = none) := by
  refine ⟨rfl, ?_, ?_, rfl⟩
  · show pyFloatLit ((s.toList.filter numericKept).filter numericKept)
      = pyFloatLit (s.toList.filter numericKept)
    rw [List.filter_filter]
    simp
  · have h1 : parse_float "$1,234.56" = some ⟨123456, 2⟩ := rfl
    rw [h1, Option.map_some']
    rw [Option.some_inj]
    show ((123456 : ℚ)) / (10 : ℚ) ^ (2 : Nat) = (1234.56 : ℚ)
    norm_num

/-- C8 witness: instance at a concrete string with junk characters. -/
theorem claim_C8_witness :
    parse_float " 12m-3 " = pyFloatLit (" 12m-3 ".toList.filter numericKept) ∧
    parse_float "N/A" = none :=
  ⟨(claim_C8_parse_float " 12m-3 ").1, (claim_C8_parse_float " 12m-3 ").2.2.2⟩

/-! ## Date parsing (`app.py`, `parse_date`)

`parse_date` tries five `datetime.strptime` formats in order.  CPython's
`_strptime` compiles a format to a regex — `%m` to `1[0-2]|0[1-9]|[1-9]`,
`%d` to `3[01]|[12]\d|0[1-9]|[1-9]`, `%Y` to four digits, `%b`/`%B` to the
case-insensitive month-name alternation, runs of whitespace in the format
to one-or-more whitespace — takes the preference-first prefix match,
requires the whole string consumed, then builds the `date` (raising on an
invalid calendar day).  The token parsers below return every possible
(value, rest) split in exactly that preference order. -/

/-- A calendar date (`datetime.date`). -/
structure PyDate where
  year : Nat
  month : Nat
  day : Nat
deriving DecidableEq, Repr

/-- Gregorian leap year, as used by `datetime`. -/
def isLeapYear (y : Nat) : Bool := (y % 4 == 0 && !(y % 100 == 0)) || y % 400 == 0

/-- Days in a month, as validated by `datetime.date`. -/
def daysInMonth (y m : Nat) : Nat :=
  if m = 2 then (if isLeapYear y then 29 else 28)
  else if m = 4 || m = 6 || m = 9 || m = 11 then 30
  else 31

/-- Python `datetime.date(year, month, day)`; `none` models the `ValueError` on
out-of-range components (year 1..9999, valid month and day). -/
def mkValidDate (y m d : Nat) : Option PyDate :=
  if 1 ≤ y ∧ y ≤ 9999 ∧ 1 ≤ m ∧ m ≤ 12 ∧ 1 ≤ d ∧ d ≤ daysInMonth y m then
    some ⟨y, m, d⟩
  else none

/-- Python `\s` on ASCII text. -/
def pyIsSpace (c : Char) : Bool :=
  c == ' ' || c == '\t' || c == '\n' || c == '\x0b' || c == '\x0c' || c == '\r'

/-- Python `str.strip()`. -/
def pyStrip (cs : List Char) : List Char :=
  ((cs.dropWhile pyIsSpace).reverse.dropWhile pyIsSpace).reverse

/-- The digit value of a character. -/
def digitVal (c : Char) : Nat := c.toNat - '0'.toNat

/-- Field `%m` field regex `1[0-2]|0[1-9]|[1-9]`: all (month, rest) splits in
alternation order. -/
def monthNumAlts : List Char → List (Nat × List Char)
  | c1 :: c2 :: rest =>
    (if c1 == '1' && ('0' ≤ c2 && c2 ≤ '2') then [(10 + digitVal c2, rest)] else []) ++
    (if c1 == '0' && ('1' ≤ c2 && c2 ≤ '9') then [(digitVal c2, rest)] else []) ++
    (if '1' ≤ c1 && c1 ≤ '9' then [(digitVal c1, c2 :: rest)] else [])
  | [c1] => if '1' ≤ c1 && c1 ≤ '9' then [(digitVal c1, [])] else []
  | [] => []

/-- Field `%d` field regex `3[01]|[12]\d|0[1-9]|[1-9]`. -/
def dayNumAlts : List Char → List (Nat × List Char)
  | c1 :: c2 :: rest =>
    (if c1 == '3' && ('0' ≤ c2 && c2 ≤ '1') then [(30 + digitVal c2, rest)] else []) ++
    (if ('1' ≤ c1 && c1 ≤ '2') && c2.isDigit
     then [(digitVal c1 * 10 + digitVal c2, rest)] else []) ++
    (if c1 == '0' && ('1' ≤ c2 && c2 ≤ '9') then [(digitVal c2, rest)] else []) ++
    (if '1' ≤ c1 && c1 ≤ '9' then [(digitVal c1, c2 :: rest)] else [])
  | [c1] => if '1' ≤ c1 && c1 ≤ '9' then [(digitVal c1, [])] else []
  | [] => []

/-- Field `%Y` field regex: exactly four digits. -/
def year4Alts : List Char → List (Nat × List Char)
  | c1 :: c2 :: c3 :: c4 :: rest =>
    if c1.isDigit && c2.isDigit && c3.isDigit && c4.isDigit then
      [(natOfDigits [c1, c2, c3, c4], rest)]
    else []
  | _ => []

/-- Format-literal whitespace, compiled to `\s+`: greedy splits, longest
first, at least one character. -/
def wsAlts (cs : List Char) : List (Unit × List Char) :=
  let n := (cs.takeWhile pyIsSpace).length
  (List.range n).map (fun i => ((), cs.drop (n - i)))

/-- A literal format character. -/
def litAlts (c : Char) : List Char → List (Unit × List Char)
  | x :: rest => if x == c then [((), rest)] else []
  | [] => []

/-- Case-insensitive list equality (the `%b`/`%B` regexes carry
`re.IGNORECASE`). -/
def lowerEqList : List Char → List Char → Bool
  | [], [] => true
  | a :: as, b :: bs => a.toLower == b.toLower && lowerEqList as bs
  | _, _ => false

/-- Consume one fixed name, case-insensitively. -/
def takeNameCi (name : List Char) (cs : List Char) : List (Unit × List Char) :=
  if lowerEqList name (cs.take name.length) then [((), cs.drop name.length)] else []

/-- Field `%b`: the C-locale month abbreviations with their month numbers, in the
alternation order `_strptime` builds (equal lengths, so original order). -/
def monthAbbrPairs : List (List Char × Nat) :=
  [("jan".toList, 1), ("feb".toList, 2), ("mar".toList, 3), ("apr".toList, 4),
   ("may".toList, 5), ("jun".toList, 6), ("jul".toList, 7), ("aug".toList, 8),
   ("sep".toList, 9), ("oct".toList, 10), ("nov".toList, 11), ("dec".toList, 12)]

/-- Field `%B`: the full month names in `_strptime` alternation order (sorted by
length, longest first, stable). -/
def monthFullPairs : List (List Char × Nat) :=
  [("september".toList, 9), ("february".toList, 2), ("november".toList, 11),
   ("december".toList, 12), ("january".toList, 1), ("october".toList, 10),
   ("august".toList, 8), ("march".toList, 3), ("april".toList, 4),
   ("june".toList, 6), ("july".toList, 7), ("may".toList, 5)]

/-- Month-name alternation: all (month number, rest) splits in order. -/
def nameAlts (pairs : List (List Char × Nat)) (cs : List Char) :
    List (Nat × List Char) :=
  pairs.flatMap (fun p => (takeNameCi p.1 cs).map (fun r => (p.2, r.2)))

/-- One token of a compiled strptime format. -/
inductive FmtTok where
  | lit (c : Char)
  | ws
  | mnum
  | dnum
  | year4
  | mabbr
  | mfull
deriving DecidableEq, Repr

/-- The date fields accumulated while matching a format. -/
structure DateAcc where
  y : Option Nat
  m : Option Nat
  d : Option Nat
deriving DecidableEq, Repr

/-- All (accumulator, rest) splits of one token, in preference order. -/
def tokApply : FmtTok → DateAcc → List Char → List (DateAcc × List Char)
  | FmtTok.lit c, acc, cs => (litAlts c cs).map (fun r => (acc, r.2))
  | FmtTok.ws, acc, cs => (wsAlts cs).map (fun r => (acc, r.2))
  | FmtTok.mnum, acc, cs =>
    (monthNumAlts cs).map (fun r => ({ acc with m := some r.1 }, r.2))
  | FmtTok.dnum, acc, cs =>
    (dayNumAlts cs).map (fun r => ({ acc with d := some r.1 }, r.2))
  | FmtTok.year4, acc, cs =>
    (year4Alts cs).map (fun r => ({ acc with y := some r.1 }, r.2))
  | FmtTok.mabbr, acc, cs =>
    (nameAlts monthAbbrPairs cs).map (fun r => ({ acc with m := some r.1 }, r.2))
  | FmtTok.mfull, acc, cs =>
    (nameAlts monthFullPairs cs).map (fun r => ({ acc with m := some r.1 }, r.2))

/-- All full-format matches in backtracking preference order (earlier
tokens' choices dominate, exactly the regex engine's search order). -/
def runFmt : List FmtTok → DateAcc → List Char → List (DateAcc × List Char)
  | [], acc, cs => [(acc, cs)]
  | tok :: toks, acc, cs =>
    (tokApply tok acc cs).flatMap (fun r => runFmt toks r.1 r.2)

/-- Python `datetime.strptime(s, fmt).date()`: the regex takes its
preference-first prefix match, `_strptime` then raises unless the whole
string was consumed, and `date(y, m, d)` validates the components. -/
def strptimeDate (fmt : List FmtTok) (cs : List Char) : Option PyDate :=
  match runFmt fmt { y := none, m := none, d := none } cs with
  | [] => none
  | r :: _ =>
    if r.2 = [] then
      match r.1.y, r.1.m, r.1.d with
      | some y, some m, some d => mkValidDate y m d
      | _, _, _ => none
    else none

/-- Format `"%m/%d/%Y"`. -/
def fmtMDY : List FmtTok :=
  [FmtTok.mnum, FmtTok.lit '/', FmtTok.dnum, FmtTok.lit '/', FmtTok.year4]

/-- Format `"%Y-%m-%d"`. -/
def fmtYMD : List FmtTok :=
  [FmtTok.year4, FmtTok.lit '-', FmtTok.mnum, FmtTok.lit '-', FmtTok.dnum]

/-- Format `"%b %d, %Y"`. -/
def fmtBDY : List FmtTok :=
  [FmtTok.mabbr, FmtTok.ws, FmtTok.dnum, FmtTok.lit ',', FmtTok.ws, FmtTok.year4]

/-- Format `"%B %d, %Y"`. -/
def fmtBFDY : List FmtTok :=
  [FmtTok.mfull, FmtTok.ws, FmtTok.dnum, FmtTok.lit ',', FmtTok.ws, FmtTok.year4]

/-- Format `"%d-%m-%Y"`. -/
def fmtDMY : List FmtTok :=
  [FmtTok.dnum, FmtTok.lit '-', FmtTok.mnum, FmtTok.lit '-', FmtTok.year4]

/-- The `date_formats` list of app.py lines 166-172, in order. -/
def date_formats : List (List FmtTok) := [fmtMDY, fmtYMD, fmtBDY, fmtBFDY, fmtDMY]

/-- The `for fmt in date_formats` loop of app.py lines 174-180: return on
the first format that parses, fall through on `ValueError`. -/
def tryFormats : List (List FmtTok) → String → Option PyDate
  | [], _ => none
  | f :: rest, s =>
    match strptimeDate f (pyStrip s.toList) with
    | some d => some d
    | none => tryFormats rest s

/-- Python `parse_date` (app.py lines 163-185). -/
def parse_date (s : String) : Option PyDate := tryFormats date_formats s

theorem tryFormats_eq_findSome (fs : List (List FmtTok)) (s : String) :
    tryFormats fs s = fs.findSome? (fun f => strptimeDate f (pyStrip s.toList)) := by
  induction fs with
  | nil => rfl
  | cons f rest ih =>
    simp only [tryFormats, List.findSome?]
    cases strptimeDate f (pyStrip s.toList) <;> simp [ih]

/-- C7: date parsing tries the fixed ordered format list `%m/%d/%Y`,
`%Y-%m-%d`, `%b %d, %Y`, `%B %d, %Y`, `%d-%m-%Y`, returns the first
format's date, null when none parses, never raising; "01/24/2025" and
"2025-01-24" both parse to 2025-01-24 and "Upon Receipt" yields null. -/
theorem claim_C7_parse_date (s : String) :
    (parse_date "01/24/2025" = some ⟨2025, 1, 24⟩) ∧
    (parse_date "2025-01-24" = some ⟨2025, 1, 24⟩) ∧
    (parse_date "Upon Receipt" = none) ∧
    (parse_date s
      = date_formats.findSome? (fun f => strptimeDate f (pyStrip s.toList))) := by
  refine ⟨?_, ?_, ?_, tryFormats_eq_findSome date_formats s⟩
  · rfl
  · rfl
  · rfl

/-! ## The regular-expression engine

The source's extraction patterns use only: literals (case-insensitive
under `re.IGNORECASE`), single-character classes, greedy `*`/`+`/`?`/`{1,2}`
over single-character classes, alternation of literals, and capture groups.
`Regex.mtch` enumerates every (captures, rest) prefix match in the engine's
backtracking preference order — alternation left-first, repetition
greedy-first — and `reSearch` takes the leftmost, preference-first match,
exactly `re.search` / first `re.finditer` hit.  (`re.MULTILINE` only alters
`^`/`$`, which no pattern uses.) -/

/-- Regular expressions over `List Char`.  Repetition is restricted to
single-character classes (all the source needs), keeping the matcher
structurally recursive. -/
inductive Regex where
  | eps
  | cls (p : Char → Bool)
  | starCls (p : Char → Bool)
  | seq (a b : Regex)
  | alt (a b : Regex)
  | group (r : Regex)

/-- All prefix matches `(captured groups, rest)` in preference order. -/
def Regex.mtch : Regex → List Char → List (List (List Char) × List Char)
  | Regex.eps, s => [([], s)]
  | Regex.cls _, [] => []
  | Regex.cls p, c :: rest => if p c then [([], rest)] else []
  | Regex.starCls p, s =>
    let n := (s.takeWhile p).length
    (List.range (n + 1)).map (fun i => ([], s.drop (n - i)))
  | Regex.seq a b, s =>
    (Regex.mtch a s).flatMap (fun ra =>
      (Regex.mtch b ra.2).map (fun rb => (ra.1 ++ rb.1, rb.2)))
  | Regex.alt a b, s => Regex.mtch a s ++ Regex.mtch b s
  | Regex.group r, s =>
    (Regex.mtch r s).map (fun rr => (rr.1 ++ [s.take (s.length - rr.2.length)], rr.2))

/-- Python `re.search`: try each start position left to right; at the first
position with a match, return the preference-first match's groups. -/
def searchAux (r : Regex) : List Char → Option (List (List Char))
  | [] =>
    match Regex.mtch r [] with
    | rr :: _ => some rr.1
    | [] => none
  | c :: t =>
    match Regex.mtch r (c :: t) with
    | rr :: _ => some rr.1
    | [] => searchAux r t

/-- Python `re.search(pattern, text)` returning the groups of the match, if any. -/
def reSearch (r : Regex) (cs : List Char) : Option (List (List Char)) :=
  searchAux r cs

/-- One exact character. -/
def rchr (c : Char) : Regex := Regex.cls (fun x => x == c)

/-- One character, case-insensitively. -/
def rchrCi (c : Char) : Regex := Regex.cls (fun x => x.toLower == c.toLower)

/-- An exact literal string. -/
def rstr (s : String) : Regex :=
  s.toList.foldr (fun c acc => Regex.seq (rchr c) acc) Regex.eps

/-- A literal string under `re.IGNORECASE`. -/
def rstrCi (s : String) : Regex :=
  s.toList.foldr (fun c acc => Regex.seq (rchrCi c) acc) Regex.eps

/-- Greedy `+` over a character class. -/
def rplus (p : Char → Bool) : Regex := Regex.seq (Regex.cls p) (Regex.starCls p)

/-- Python `?` (greedy option). -/
def ropt (r : Regex) : Regex := Regex.alt r Regex.eps

/-- Sequence of parts. -/
def rseq (rs : List Regex) : Regex := rs.foldr Regex.seq Regex.eps

/-- The class `[:.\s]`. -/
def clsColonDotWs (c : Char) : Bool := c == ':' || c == '.' || pyIsSpace c

/-- The class `[A-Za-z0-9-]`. -/
def clsAlnumDash (c : Char) : Bool := c.isAlpha || c.isDigit || c == '-'

/-- The class `[^\n]`. -/
def clsNotNl (c : Char) : Bool := !(c == '\n')

/-- The class `[\d,.]`. -/
def clsNumCommaDot (c : Char) : Bool := c.isDigit || c == ',' || c == '.'

/-- The class `\d`. -/
def clsDigit (c : Char) : Bool := c.isDigit

/-! ### The extraction patterns (app.py lines 278-283, 289-294, 299-304,
311-316, 321-326, 332, 344, 234, 387, 393, 397, 403), each compiled from
its `r"..."` literal. -/

/-- Pattern `r"Account\s*(?:No|Number|#)[:.\s]*([A-Za-z0-9-]+)"`, IGNORECASE. -/
def accountPat1 : Regex :=
  rseq [rstrCi "Account", Regex.starCls pyIsSpace,
    Regex.alt (rstrCi "No") (Regex.alt (rstrCi "Number") (rchr '#')),
    Regex.starCls clsColonDotWs, Regex.group (rplus clsAlnumDash)]

/-- Pattern `r"Account:\s*([A-Za-z0-9-]+)"`, IGNORECASE. -/
def accountPat2 : Regex :=
  rseq [rstrCi "Account:", Regex.starCls pyIsSpace,
    Regex.group (rplus clsAlnumDash)]

/-- Pattern `r"Account\s+#?\s*([A-Za-z0-9-]+)"`, IGNORECASE. -/
def accountPat3 : Regex :=
  rseq [rstrCi "Account", rplus pyIsSpace, ropt (rchr '#'),
    Regex.starCls pyIsSpace, Regex.group (rplus clsAlnumDash)]

/-- Pattern `r"Account\s+([A-Za-z0-9-]+)"`, IGNORECASE. -/
def accountPat4 : Regex :=
  rseq [rstrCi "Account", rplus pyIsSpace, Regex.group (rplus clsAlnumDash)]

/-- The ordered account-number pattern list (app.py lines 278-283). -/
def account_patterns : List Regex :=
  [accountPat1, accountPat2, accountPat3, accountPat4]

/-- Pattern `r"Bill\s*Date[:.\s]*([^\n]+)"`, IGNORECASE. -/
def billDatePat1 : Regex :=
  rseq [rstrCi "Bill", Regex.starCls pyIsSpace, rstrCi "Date",
    Regex.starCls clsColonDotWs, Regex.group (rplus clsNotNl)]

/-- Pattern `r"Statement\s*Date[:.\s]*([^\n]+)"`, IGNORECASE. -/
def billDatePat2 : Regex :=
  rseq [rstrCi "Statement", Regex.starCls pyIsSpace, rstrCi "Date",
    Regex.starCls clsColonDotWs, Regex.group (rplus clsNotNl)]

/-- Pattern `r"Bill\s+Date\s+([^\n]+)"`, IGNORECASE. -/
def billDatePat3 : Regex :=
  rseq [rstrCi "Bill", rplus pyIsSpace, rstrCi "Date", rplus pyIsSpace,
    Regex.group (rplus clsNotNl)]

/-- Pattern `r"Bill mailing date is ([^\n]+)"`, IGNORECASE. -/
def billDatePat4 : Regex :=
  rseq [rstrCi "Bill mailing date is ", Regex.group (rplus clsNotNl)]

/-- The ordered bill-date pattern list (app.py lines 289-294). -/
def bill_date_patterns : List Regex :=
  [billDatePat1, billDatePat2, billDatePat3, billDatePat4]

/-- Pattern `r"Due\s*Date[:.\s]*([^\n]+)"`, IGNORECASE. -/
def dueDatePat1 : Regex :=
  rseq [rstrCi "Due", Regex.starCls pyIsSpace, rstrCi "Date",
    Regex.starCls clsColonDotWs, Regex.group (rplus clsNotNl)]

/-- Pattern `r"Payment\s*Due\s*Date[:.\s]*([^\n]+)"`, IGNORECASE. -/
def dueDatePat2 : Regex :=
  rseq [rstrCi "Payment", Regex.starCls pyIsSpace, rstrCi "Due",
    Regex.starCls pyIsSpace, rstrCi "Date", Regex.starCls clsColonDotWs,
    Regex.group (rplus clsNotNl)]

/-- Pattern `r"Due\s+Date\s+([^\n]+)"`, IGNORECASE. -/
def dueDatePat3 : Regex :=
  rseq [rstrCi "Due", rplus pyIsSpace, rstrCi "Date", rplus pyIsSpace,
    Regex.group (rplus clsNotNl)]

/-- Pattern `r"Amount due on or before ([^\n]+)"`, IGNORECASE. -/
def dueDatePat4 : Regex :=
  rseq [rstrCi "Amount due on or before ", Regex.group (rplus clsNotNl)]

/-- The ordered due-date pattern list (app.py lines 299-304). -/
def due_date_patterns : List Regex :=
  [dueDatePat1, dueDatePat2, dueDatePat3, dueDatePat4]

/-- Pattern `r"Current\s*Charges[:.\s]*\$?\s*([\d,.]+)"`, IGNORECASE. -/
def currChargesPat1 : Regex :=
  rseq [rstrCi "Current", Regex.starCls pyIsSpace, rstrCi "Charges",
    Regex.starCls clsColonDotWs, ropt (rchr '$'), Regex.starCls pyIsSpace,
    Regex.group (rplus clsNumCommaDot)]

/-- Pattern `r"Total\s*Current\s*Charges[:.\s]*\$?\s*([\d,.]+)"`, IGNORECASE. -/
def currChargesPat2 : Regex :=
  rseq [rstrCi "Total", Regex.starCls pyIsSpace, rstrCi "Current",
    Regex.starCls pyIsSpace, rstrCi "Charges", Regex.starCls clsColonDotWs,
    ropt (rchr '$'), Regex.starCls pyIsSpace,
    Regex.group (rplus clsNumCommaDot)]

/-- Pattern `r"Current\s+Charges\s*\$?\s*([\d,.]+)"`, IGNORECASE. -/
def currChargesPat3 : Regex :=
  rseq [rstrCi "Current", rplus pyIsSpace, rstrCi "Charges",
    Regex.starCls pyIsSpace, ropt (rchr '$'), Regex.starCls pyIsSpace,
    Regex.group (rplus clsNumCommaDot)]

/-- Pattern `r"Amount due on or before \$?([\d,.]+)"`, IGNORECASE. -/
def amountBeforePat : Regex :=
  rseq [rstrCi "Amount due on or before ", ropt (rchr '$'),
    Regex.group (rplus clsNumCommaDot)]

/-- The ordered current-charges pattern list (app.py lines 311-316). -/
def current_charges_patterns : List Regex :=
  [currChargesPat1, currChargesPat2, currChargesPat3, amountBeforePat]

/-- Pattern `r"Amount\s*Due[:.\s]*\$?\s*([\d,.]+)"`, IGNORECASE. -/
def amountDuePat1 : Regex :=
  rseq [rstrCi "Amount", Regex.starCls pyIsSpace, rstrCi "Due",
    Regex.starCls clsColonDotWs, ropt (rchr '$'), Regex.starCls pyIsSpace,
    Regex.group (rplus clsNumCommaDot)]

/-- Pattern `r"Total\s*Amount\s*Due[:.\s]*\$?\s*([\d,.]+)"`, IGNORECASE. -/
def amountDuePat2 : Regex :=
  rseq [rstrCi "Total", Regex.starCls pyIsSpace, rstrCi "Amount",
    Regex.starCls pyIsSpace, rstrCi "Due", Regex.starCls clsColonDotWs,
    ropt (rchr '$'), Regex.starCls pyIsSpace,
    Regex.group (rplus clsNumCommaDot)]

/-- Pattern `r"Amount\s+Due\s*\$?\s*([\d,.]+)"`, IGNORECASE. -/
def amountDuePat3 : Regex :=
  rseq [rstrCi "Amount", rplus pyIsSpace, rstrCi "Due",
    Regex.starCls pyIsSpace, ropt (rchr '$'), Regex.starCls pyIsSpace,
    Regex.group (rplus clsNumCommaDot)]

/-- The ordered amount-due pattern list (app.py lines 321-326); the fourth
entry is the same `Amount due on or before` pattern. -/
def amount_due_patterns : List Regex :=
  [amountDuePat1, amountDuePat2, amountDuePat3, amountBeforePat]

/-- Pattern `r"rebill"`, IGNORECASE (app.py line 332). -/
def rebillPat : Regex := rstrCi "rebill"

/-- Pattern `r"Meter\s*#\s*([A-Za-z0-9-]+)"`, case-sensitive (app.py line 344). -/
def meterNumPat : Regex :=
  rseq [rstr "Meter", Regex.starCls pyIsSpace, rchr '#',
    Regex.starCls pyIsSpace, Regex.group (rplus clsAlnumDash)]

/-- Python `(?:Actual|Estimated)`, case-sensitive. -/
def actualOrEstimated : Regex := Regex.alt (rstr "Actual") (rstr "Estimated")

/-- Pattern `r"(\d+)\s+(?:Actual|Estimated)\s+(\d+)\s+(?:Actual|Estimated)\s+(\d+)"`
(app.py line 234). -/
def readingsPat : Regex :=
  rseq [Regex.group (rplus clsDigit), rplus pyIsSpace, actualOrEstimated,
    rplus pyIsSpace, Regex.group (rplus clsDigit), rplus pyIsSpace,
    actualOrEstimated, rplus pyIsSpace, Regex.group (rplus clsDigit)]

/-- Pattern `r"\d+\s+(kWh|kW|CCF|MCF|Therms?)"`, IGNORECASE (app.py line 387). -/
def unitPat : Regex :=
  rseq [rplus clsDigit, rplus pyIsSpace,
    Regex.group (Regex.alt (rstrCi "kWh") (Regex.alt (rstrCi "kW")
      (Regex.alt (rstrCi "CCF") (Regex.alt (rstrCi "MCF")
        (rseq [rstrCi "Therm", ropt (rchrCi 's')])))))]

/-- Pattern `r"Estimated"`, IGNORECASE (app.py line 393). -/
def estimatedPat : Regex := rstrCi "Estimated"

/-- Pattern `r"Multiplier\s+(\d+(?:\.\d+)?)"`, case-sensitive (app.py line 397). -/
def multiplierPat : Regex :=
  rseq [rstr "Multiplier", rplus pyIsSpace,
    Regex.group (rseq [rplus clsDigit, ropt (rseq [rchr '.', rplus clsDigit])])]

/-- Python `\d{1,2}` (greedy: two digits preferred). -/
def rep12digits : Regex :=
  Regex.alt (Regex.seq (Regex.cls clsDigit) (Regex.cls clsDigit))
    (Regex.cls clsDigit)

/-- Python `\d{1,2}/\d{1,2}`. -/
def mmddPat : Regex := rseq [rep12digits, rchr '/', rep12digits]

/-- Pattern `r"Service Period\s+(\d{1,2}/\d{1,2})\s*-\s*(\d{1,2}/\d{1,2})"`,
case-sensitive (app.py line 403). -/
def periodPat : Regex :=
  rseq [rstr "Service Period", rplus pyIsSpace, Regex.group mmddPat,
    Regex.starCls pyIsSpace, rchr '-', Regex.starCls pyIsSpace,
    Regex.group mmddPat]

/-! ## The extraction engine (`app.py`, `extract_data_from_pdf`) -/

/-- Python `extract_field_value` (app.py lines 198-211): first pattern with a
match wins, returning the first match's group(1), stripped. -/
def extract_field_value (text : List Char) (patterns : List Regex) :
    Option (List Char) :=
  patterns.findSome? (fun p =>
    (reSearch p text).map (fun caps => pyStrip (caps.getD 0 [])))

/-- Whether `pre` is an initial segment of `s`. -/
def startsWithL : List Char → List Char → Bool
  | [], _ => true
  | _ :: _, [] => false
  | p :: ps, c :: cs => p == c && startsWithL ps cs

/-- Python `re.split` on a literal separator, fuel-driven (the fuel, input length
plus one, bounds the number of scan steps). -/
def splitLitAux (sep : List Char) : Nat → List Char → List Char → List (List Char)
  | _, [], acc => [acc.reverse]
  | 0, s, acc => [acc.reverse ++ s]
  | fuel + 1, c :: rest, acc =>
    if startsWithL sep (c :: rest) then
      acc.reverse :: splitLitAux sep fuel ((c :: rest).drop sep.length) []
    else
      splitLitAux sep fuel rest (c :: acc)

/-- Python `re.split(sep, s)` for a literal separator pattern. -/
def splitOnLit (sep : List Char) (s : List Char) : List (List Char) :=
  splitLitAux sep (s.length + 1) s []

/-- Python `MeterData` (app.py lines 78-99). -/
structure MeterData where
  meter_number : Option String
  previous_read_date : Option PyDate
  read_date : Option PyDate
  previous_reading : Option PyFloat
  meter_reading : Option PyFloat
  multiplier : Option PyFloat
  usage : Option PyFloat
  unit : Option String
  estimated : Bool
  utility_charges : Option PyFloat
  utility_taxes : Option PyFloat
  supply_charges : Option PyFloat
  supply_taxes : Option PyFloat
  other_charge : Option PyFloat
  rec_charge : Option PyFloat
  therm_factor : Option PyFloat
  adjustment_factor : Option PyFloat
  demand : Option PyFloat
  kw_actual : Option PyFloat
  kw_billed : Option PyFloat
  power_factor : Option PyFloat
deriving DecidableEq, Repr

/-- Python `MeterData()` with the pydantic defaults (multiplier 1.0, estimated
False, everything else None). -/
def MeterData.init : MeterData :=
  { meter_number := none, previous_read_date := none, read_date := none,
    previous_reading := none, meter_reading := none,
    multiplier := some ⟨1, 0⟩, usage := none, unit := none, estimated := false,
    utility_charges := none, utility_taxes := none, supply_charges := none,
    supply_taxes := none, other_charge := none, rec_charge := none,
    therm_factor := none, adjustment_factor := none, demand := none,
    kw_actual := none, kw_billed := none, power_factor := none }

/-- Python `BillData` (app.py lines 101-110). -/
structure BillData where
  account_number : Option String
  bill_date : Option PyDate
  due_date : Option PyDate
  balance_forward : Option PyFloat
  current_charges : Option PyFloat
  late_fee : Option PyFloat
  amount_due : Option PyFloat
  rebill_adjustment : Bool
  meters : List MeterData
deriving DecidableEq, Repr

/-- Python `is_valid_meter_number` (app.py lines 213-228).  The letters test
`letter_count > len(meter_num) / 2` is a Python float comparison; on
integers it is exactly `2 * letter_count > len` (halves are exact in
binary floating point), the form used here. -/
def is_valid_meter_number (meter_num : String) : Bool :=
  if meter_num = "" ∨ meter_num.length < 5 ∨ meter_num.length > 15 then false
  else if ¬ (meter_num.toList.any Char.isDigit = true) then false
  else if 2 * (meter_num.toList.filter Char.isAlpha).length > meter_num.length
    then false
  else true

/-- Python `extract_meter_readings` (app.py lines 230-240): a single regex yields
all three readings, or none. -/
def extract_meter_readings (sec : List Char) :
    Option PyFloat × Option PyFloat × Option PyFloat :=
  match reSearch readingsPat sec with
  | some caps =>
    (parse_float (String.mk (caps.getD 0 [])),
     parse_float (String.mk (caps.getD 1 [])),
     parse_float (String.mk (caps.getD 2 [])))
  | none => (none, none, none)

/-- The candidate sections `re.split(r"Meter Read Details:", text)[1:]`
(app.py line 342). -/
def meterSections (text : List Char) : List (List Char) :=
  (splitOnLit "Meter Read Details:".toList text).drop 1

/-- The accepted `(meter_num, section)` pairs (app.py lines 343-351):
sections with a `Meter #` number that passes validation, in text order. -/
def acceptedSections (text : List Char) : List (String × List Char) :=
  (meterSections text).filterMap (fun sec =>
    match reSearch meterNumPat sec with
    | some caps =>
      let num := String.mk (caps.getD 0 [])
      if is_valid_meter_number num then some (num, sec) else none
    | none => none)

/-- Python `if x is not None: field = x`. -/
def setOpt {α : Type} (cur new : Option α) : Option α :=
  match new with
  | some v => some v
  | none => cur

/-- The per-section meter construction of app.py lines 358-414 (everything
before the retention check).  `year` is the service-period year inferred at
line 408 (bill-date year, or the clock year when no bill date parsed); a
failed `strptime` of the period start skips both date assignments, a failed
period end keeps the start (the `try` aborts between the two statements). -/
def buildMeter (year : Nat) (num : String) (sec : List Char) : MeterData :=
  let m0 := { MeterData.init with meter_number := some num }
  let rd := extract_meter_readings sec
  let m1 := { m0 with
    previous_reading := setOpt m0.previous_reading rd.1,
    meter_reading := setOpt m0.meter_reading rd.2.1,
    usage := setOpt m0.usage rd.2.2 }
  let m2 :=
    match reSearch unitPat sec with
    | some caps => { m1 with unit := some (String.mk (caps.getD 0 [])) }
    | none => m1
  let m3 := { m2 with estimated := (reSearch estimatedPat sec).isSome }
  let m4 :=
    match reSearch multiplierPat sec with
    | some caps => { m3 with multiplier := parse_float (String.mk (caps.getD 0 [])) }
    | none => m3
  match reSearch periodPat sec with
  | some caps =>
    let sd := String.mk (caps.getD 0 [])
    let ed := String.mk (caps.getD 1 [])
    match strptimeDate fmtMDY (sd ++ "/" ++ toString year).toList with
    | some p =>
      let m5 := { m4 with previous_read_date := some p }
      match strptimeDate fmtMDY (ed ++ "/" ++ toString year).toList with
      | some r => { m5 with read_date := some r }
      | none => m5
    | none => m4
  | none => m4

/-- Python truthiness of an optional string (None and "" are falsy). -/
def pyTruthyStr : Option String → Bool
  | some s => !(s == "")
  | none => false

/-- Python truthiness of an optional float (None and 0.0 are falsy). -/
def pyTruthyFloat : Option PyFloat → Bool
  | some f => !(f.num == 0)
  | none => false

/-- The retention check of app.py lines 416-422:
`all([meter.meter_number, any([previous_reading, meter_reading, usage])])`
under Python truthiness. -/
def meterRetained (m : MeterData) : Bool :=
  pyTruthyStr m.meter_number &&
    (pyTruthyFloat m.previous_reading || pyTruthyFloat m.meter_reading ||
      pyTruthyFloat m.usage)

/-- The meter loop of app.py lines 358-430: build the first three accepted
sections in order and append exactly the retained ones. -/
def metersOf (text : List Char) (year : Nat) : List MeterData :=
  (((acceptedSections text).take 3).map (fun p => buildMeter year p.1 p.2)).filter
    meterRetained

/-- The bill-date stage of app.py lines 289-297 (`if bill_date_str:`
guards the parse with Python truthiness). -/
def billDateOf (text : List Char) : Option PyDate :=
  match extract_field_value text bill_date_patterns with
  | some s => if !(s.isEmpty) then parse_date (String.mk s) else none
  | none => none

/-- Python `year = bill_data.bill_date.year if bill_data.bill_date else
datetime.now().year` (app.py line 408). -/
def inferYear (billDate : Option PyDate) (nowYear : Nat) : Nat :=
  match billDate with
  | some d => d.year
  | none => nowYear

/-- The text-level body of `extract_data_from_pdf` (app.py lines 242-436).
The PDF layer is an external collaborator: `text` is the newline-joined
concatenation of the page texts, and `nowYear` the year `datetime.now()`
reports during the run.  Empty text raises `ValueError` (lines 268-270). -/
def extract_data_from_text (text : String) (nowYear : Nat) :
    Except String BillData :=
  if text = "" then Except.error "No text could be extracted from the PDF"
  else
    let cs := text.toList
    let account_number := extract_field_value cs account_patterns
    let bill_date := billDateOf cs
    let due_date :=
      match extract_field_value cs due_date_patterns with
      | some s => if !(s.isEmpty) then parse_date (String.mk s) else none
      | none => none
    let current_charges :=
      match extract_field_value cs current_charges_patterns with
      | some s => if !(s.isEmpty) then parse_float (String.mk s) else none
      | none => none
    let amount_due :=
      match extract_field_value cs amount_due_patterns with
      | some s => if !(s.isEmpty) then parse_float (String.mk s) else none
      | none => none
    Except.ok
      { account_number := account_number.map String.mk,
        bill_date := bill_date,
        due_date := due_date,
        balance_forward := some ⟨0, 0⟩,
        current_charges := current_charges,
        late_fee := some ⟨0, 0⟩,
        amount_due := amount_due,
        rebill_adjustment := (reSearch rebillPat cs).isSome,
        meters := metersOf cs (inferYear bill_date nowYear) }

/-! ## Claim theorems on the extraction engine -/

deriving instance DecidableEq for Except

/-- C5: extraction fails — with the `NoTextExtracted` error — exactly when
the input text is empty, and returns a BillRecord for every non-empty
input, however malformed; fields whose patterns do not match are simply
absent (the junk document extracts to the all-absent record). -/
theorem claim_C5_extract_total_iff_empty (text : String) (nowYear : Nat) :
    ((∃ e, extract_data_from_text text nowYear = Except.error e) ↔ text = "") ∧
    (extract_data_from_text "" nowYear
      = Except.error "No text could be extracted from the PDF") ∧
    (extract_data_from_text "complete junk $$$" 2025 = Except.ok
      { account_number := none, bill_date := none, due_date := none,
        balance_forward := some ⟨0, 0⟩, current_charges := none,
        late_fee := some ⟨0, 0⟩, amount_due := none,
        rebill_adjustment := false, meters := [] }) := by
  refine ⟨?_, rfl, rfl⟩
  constructor
  · rintro ⟨e, he⟩
    by_contra hne
    rw [extract_data_from_text, if_neg hne] at he
    simp at he
  · rintro rfl
    exact ⟨"No text could be extracted from the PDF", rfl⟩

/-- A document with a valid meter section, a service period, nonzero
readings and no extractable bill date: its period dates take their year
from the clock. -/
def c3text : String :=
  "Meter Read Details: Meter # 12345 Service Period 1/2 - 1/30 100 Actual 200 Actual 100 kWh"

set_option maxRecDepth 10000 in
/-- C3 counterexample: the pattern engine's output is not independent of
when it runs — the same text extracted at clock year 2025 and at clock
year 2026 yields different BillRecords (the service-period dates embed the
clock year when no bill date is found, app.py line 408). -/
theorem claim_C3_counterexample :
    extract_data_from_text c3text 2025 ≠ extract_data_from_text c3text 2026 := by
  decide

/-- C3 (amended): extraction is a pure function of the document text and
the current clock year — two runs on the same text with equal clock years
produce identical BillRecords, field for field — and whenever a bill date
is extracted from the text the output does not depend on the clock at
all.  (As stated, full independence from execution time fails: see the
counterexample.) -/
theorem claim_C3_determinism_amended (text : String) (y1 y2 : Nat)
    (h : (billDateOf text.toList).isSome = true) :
    extract_data_from_text text y1 = extract_data_from_text text y1 ∧
    extract_data_from_text text y1 = extract_data_from_text text y2 := by
  refine ⟨rfl, ?_⟩
  obtain ⟨d, hd⟩ := Option.isSome_iff_exists.mp h
  simp only [extract_data_from_text, hd, inferYear]

/-- C3 witness: a text with an extractable bill date extracts identically
at different clock years. -/
theorem claim_C3_witness :
    (billDateOf "Bill Date: 01/24/2025".toList).isSome = true ∧
    extract_data_from_text "Bill Date: 01/24/2025" 2025
      = extract_data_from_text "Bill Date: 01/24/2025" 2026 :=
  ⟨rfl, (claim_C3_determinism_amended "Bill Date: 01/24/2025" 2025 2026 rfl).2⟩

theorem pyTruthyStr_iff (o : Option String) :
    pyTruthyStr o = true ↔ ∃ s, o = some s ∧ s ≠ "" := by
  cases o with
  | none => simp [pyTruthyStr]
  | some s => by_cases h : s = "" <;> simp [pyTruthyStr, h]

theorem pyTruthyFloat_iff (o : Option PyFloat) :
    pyTruthyFloat o = true ↔ ∃ f, o = some f ∧ f.num ≠ 0 := by
  cases o with
  | none => simp [pyTruthyFloat]
  | some f => by_cases h : f.num = 0 <;> simp [pyTruthyFloat, h]

theorem meterRetained_iff (m : MeterData) :
    meterRetained m = true ↔
      ((∃ s, m.meter_number = some s ∧ s ≠ "") ∧
        (∃ f : PyFloat, f.num ≠ 0 ∧
          (m.previous_reading = some f ∨ m.meter_reading = some f ∨
            m.usage = some f))) := by
  rw [meterRetained, Bool.and_eq_true]
  simp only [Bool.or_eq_true, pyTruthyStr_iff, pyTruthyFloat_iff]
  constructor
  · rintro ⟨h1, h2⟩
    refine ⟨h1, ?_⟩
    rcases h2 with (⟨f, hf, hn⟩ | ⟨f, hf, hn⟩) | ⟨f, hf, hn⟩
    · exact ⟨f, hn, Or.inl hf⟩
    · exact ⟨f, hn, Or.inr (Or.inl hf)⟩
    · exact ⟨f, hn, Or.inr (Or.inr hf)⟩
  · rintro ⟨h1, f, hn, hcase⟩
    refine ⟨h1, ?_⟩
    rcases hcase with h | h | h
    · exact Or.inl (Or.inl ⟨f, h, hn⟩)
    · exact Or.inl (Or.inr ⟨f, h, hn⟩)
    · exact Or.inr ⟨f, h, hn⟩

theorem metersOf_mem_iff (text : List Char) (year : Nat) (m : MeterData) :
    m ∈ metersOf text year ↔
      ∃ num sec, (num, sec) ∈ (acceptedSections text).take 3 ∧
        m = buildMeter year num sec ∧ meterRetained m = true := by
  rw [metersOf, List.mem_filter]
  simp only [List.mem_map]
  constructor
  · rintro ⟨⟨p, hp, hb⟩, hr⟩
    exact ⟨p.1, p.2, hp, hb.symm, hr⟩
  · rintro ⟨num, sec, hmem, hb, hr⟩
    exact ⟨⟨(num, sec), hmem, hb.symm⟩, hr⟩

theorem acceptedSections_sound (text : List Char) (num : String)
    (sec : List Char) (h : (num, sec) ∈ acceptedSections text) :
    sec ∈ meterSections text ∧ is_valid_meter_number num = true := by
  rw [acceptedSections] at h
  obtain ⟨sec2, hsec2, hf⟩ := List.mem_filterMap.mp h
  cases hs : reSearch meterNumPat sec2 with
  | none => rw [hs] at hf; simp at hf
  | some caps =>
    rw [hs] at hf
    dsimp only [] at hf
    by_cases hv : is_valid_meter_number (String.mk (caps.getD 0 [])) = true
    · rw [if_pos hv] at hf
      simp only [Option.some.injEq, Prod.mk.injEq] at hf
      obtain ⟨hnum, hsec⟩ := hf
      subst hnum
      subst hsec
      exact ⟨hsec2, hv⟩
    · rw [if_neg hv] at hf
      simp at hf

theorem half_length_rat (l n : Nat) :
    ((l : ℚ) ≤ (n : ℚ) / 2) ↔ 2 * l ≤ n := by
  rw [le_div_iff (by norm_num : (0 : ℚ) < 2), mul_comm]
  constructor <;> intro h <;> exact_mod_cast h

theorem acceptedSections_complete (text : List Char) (sec : List Char)
    (hsec : sec ∈ meterSections text) (caps : List (List Char))
    (hsearch : reSearch meterNumPat sec = some caps)
    (hvalid : is_valid_meter_number (String.mk (caps.getD 0 [])) = true) :
    (String.mk (caps.getD 0 []), sec) ∈ acceptedSections text := by
  rw [acceptedSections]
  refine List.mem_filterMap.mpr ⟨sec, hsec, ?_⟩
  rw [hsearch]
  dsimp only []
  rw [if_pos hvalid]

theorem is_valid_meter_number_iff (s : String) :
    is_valid_meter_number s = true ↔
      (5 ≤ s.length ∧ s.length ≤ 15 ∧
        (∃ c ∈ s.toList, c.isDigit = true) ∧
        2 * (s.toList.filter Char.isAlpha).length ≤ s.length) := by
  constructor
  · intro hv
    rw [is_valid_meter_number] at hv
    split at hv
    · exact absurd hv (by simp)
    · split at hv
      · exact absurd hv (by simp)
      · split at hv
        · exact absurd hv (by simp)
        · rename_i h1 h2 h3
          push_neg at h1
          obtain ⟨hne, h5, h15⟩ := h1
          rw [not_not] at h2
          refine ⟨by omega, by omega, ?_, by omega⟩
          exact List.any_eq_true.mp h2
  · rintro ⟨h5, h15, hdig, hlet⟩
    rw [is_valid_meter_number]
    rw [if_neg, if_neg, if_neg]
    · omega
    · rw [not_not]
      exact List.any_eq_true.mpr hdig
    · push_neg
      refine ⟨?_, by omega, by omega⟩
      intro hrfl
      rw [hrfl] at h5
      simp at h5

/-- C4 (amended): a text segment contributes a MeterRecord iff it follows a
literal "Meter Read Details:" marker, its "Meter #" number passes
validation (length in [5,15], at least one digit, letters at most half the
length), it is among the first three accepted sections in text order, and
the built record has a (truthy) meter number and at least one of
previous_reading, meter_reading, usage present *with a nonzero value*
(Python truthiness — a reading of 0 does not count, which is the one
correction to the claim); retained meters keep first-accepted text order.
A section with meter number "AB12345" and no reading fields produces no
MeterRecord, and a section with meter number "12" is discarded even with
valid readings. -/
theorem claim_C4_meter_retention_amended (text : List Char) (year : Nat) :
    (∀ m : MeterData, m ∈ metersOf text year ↔
      ∃ num sec, (num, sec) ∈ (acceptedSections text).take 3 ∧
        m = buildMeter year num sec ∧
        (∃ s, m.meter_number = some s ∧ s ≠ "") ∧
        (∃ f : PyFloat, f.num ≠ 0 ∧
          (m.previous_reading = some f ∨ m.meter_reading = some f ∨
            m.usage = some f))) ∧
    (∀ num sec, (num, sec) ∈ acceptedSections text →
      sec ∈ meterSections text ∧ is_valid_meter_number num = true) ∧
    (∀ sec, sec ∈ meterSections text → ∀ caps : List (List Char),
      reSearch meterNumPat sec = some caps →
      is_valid_meter_number (String.mk (caps.getD 0 [])) = true →
      (String.mk (caps.getD 0 []), sec) ∈ acceptedSections text) ∧
    (∀ s : String, is_valid_meter_number s = true ↔
      (5 ≤ s.length ∧ s.length ≤ 15 ∧
        (∃ c ∈ s.toList, c.isDigit = true) ∧
        ((s.toList.filter Char.isAlpha).length : ℚ) ≤ (s.length : ℚ) / 2)) ∧
    List.Sublist (metersOf text year)
      (((acceptedSections text).take 3).map (fun p => buildMeter year p.1 p.2)) ∧
    (metersOf "Meter Read Details: Meter # AB12345 with no readings".toList
      2025 = []) ∧
    (acceptedSections
      "Meter Read Details: Meter # 12 77 Actual 88 Actual 11".toList = []) := by
  refine ⟨?_, ?_, ?_, ?_, ?_, rfl, rfl⟩
  · intro m
    rw [metersOf_mem_iff]
    constructor
    · rintro ⟨num, sec, hmem, hb, hr⟩
      obtain ⟨h1, h2⟩ := (meterRetained_iff m).mp hr
      exact ⟨num, sec, hmem, hb, h1, h2⟩
    · rintro ⟨num, sec, hmem, hb, h1, h2⟩
      exact ⟨num, sec, hmem, hb, (meterRetained_iff m).mpr ⟨h1, h2⟩⟩
  · intro num sec h
    exact acceptedSections_sound text num sec h
  · intro sec hsec caps hsearch hvalid
    exact acceptedSections_complete text sec hsec caps hsearch hvalid
  · intro s
    rw [is_valid_meter_number_iff]
    constructor
    · rintro ⟨a, b, c, d⟩
      exact ⟨a, b, c, (half_length_rat _ _).mpr d⟩
    · rintro ⟨a, b, c, d⟩
      exact ⟨a, b, c, (half_length_rat _ _).mp d⟩
  · exact List.filter_sublist _

/-- A section with a valid meter number whose readings triple is present
but entirely zero. -/
def c4text : String := "Meter Read Details: Meter # 12345 0 Actual 0 Actual 0"

/-- The single candidate section of `c4text`. -/
def c4section : List Char := " Meter # 12345 0 Actual 0 Actual 0".toList

/-- C4 counterexample to the claim as stated: the section is accepted (its
meter number "12345" is valid), the built record has a meter number and
all three readings *present* (each 0), so the claim's retention condition
holds — yet the extracted BillRecord contains no MeterRecord, because the
code tests Python truthiness (`any([...])`) and 0.0 is falsy. -/
theorem claim_C4_counterexample :
    acceptedSections c4text.toList = [("12345", c4section)] ∧
    (buildMeter 2025 "12345" c4section).meter_number = some "12345" ∧
    (buildMeter 2025 "12345" c4section).previous_reading = some ⟨0, 0⟩ ∧
    (buildMeter 2025 "12345" c4section).meter_reading = some ⟨0, 0⟩ ∧
    (buildMeter 2025 "12345" c4section).usage = some ⟨0, 0⟩ ∧
    metersOf c4text.toList 2025 = [] :=
  ⟨rfl, rfl, rfl, rfl, rfl, rfl⟩

end Extractor
